import Mathlib

/-!
Shallow embedding of the synchronization pipeline of
`google_photos_sync_mac.py` (google-photos-sync-mac), together with proofs
of the specification claims about it.

Python dicts are modelled as insertion-ordered association lists
(`List (String × ν)`) with last-write-wins assignment that keeps the
position of an existing key, exactly like CPython dicts.  Filesystem and
network effects are modelled by passing their outcomes in explicitly
(`Except`/`Option` values), so that the control flow of the source —
which exceptions are caught where, which branch runs — is preserved.
-/

namespace GPhotosSyncMac

/-- Python dict assignment `d[k] = v`: if the key is already present its
value is replaced in place (position kept), otherwise the pair is appended. -/
def dict_set {ν : Type} (d : List (String × ν)) (k : String) (v : ν) :
    List (String × ν) :=
  if d.any (fun p => p.1 == k) then
    d.map (fun p => if p.1 == k then (k, v) else p)
  else
    d ++ [(k, v)]

/-- Python dict read `d[k]` (as an option): value of the first pair whose
key equals `k`. -/
def dict_lookup {ν : Type} (d : List (String × ν)) (k : String) : Option ν :=
  match d.find? (fun p => p.1 == k) with
  | some p => some p.2
  | none => none

/-! ## Reconciler (`main`, lines 117–132)

The loop iterates over the remote index `photos` (a dict, modelled as an
association list in insertion order), tests membership of the (possibly
case-folded) filename among the keys of `photo_files_on_disk`, and breaks
out of the loop once `len(photos_to_download) >= args.max_downloads`,
but only when `args.max_downloads > 0`. -/

/-- Python's `str.lower()` applied characterwise (kernel-computable, in
contrast to `String.toLower`, whose byte-position recursion does not
reduce). -/
def str_lower (s : String) : String :=
  ⟨s.data.map Char.toLower⟩

/-- The `need_to_download` test of `main` lines 120–124: the remote
filename, case-folded unless case-sensitive mode is on, must not be a key
of the on-disk index. -/
def need_download {α : Type} (case_sensitive : Bool)
    (photo_files_on_disk : List String) (p : String × α) : Bool :=
  if case_sensitive then !(photo_files_on_disk.contains p.1)
  else !(photo_files_on_disk.contains (str_lower p.1))

/-- Body of the reconciliation loop of `main` lines 120–132, with the
accumulated plan `acc` made explicit.  The `break` is taken only when
`max_downloads > 0` and the plan has reached `max_downloads` entries. -/
def photos_to_download_loop {α : Type} (case_sensitive : Bool)
    (max_downloads : Int) (photo_files_on_disk : List String) :
    List (String × α) → List (String × α) → List (String × α)
  | [], acc => acc
  | p :: rest, acc =>
    let acc' := if need_download case_sensitive photo_files_on_disk p then
      acc ++ [p] else acc
    if 0 < max_downloads then
      if max_downloads ≤ (acc'.length : Int) then acc'
      else photos_to_download_loop case_sensitive max_downloads
        photo_files_on_disk rest acc'
    else photos_to_download_loop case_sensitive max_downloads
      photo_files_on_disk rest acc'

/-- The reconciliation step of `main` lines 117–132: starting from an
empty plan, run the loop over the remote index. -/
def photos_to_download {α : Type} (case_sensitive : Bool) (max_downloads : Int)
    (photo_files_on_disk : List String) (photos : List (String × α)) :
    List (String × α) :=
  photos_to_download_loop case_sensitive max_downloads photo_files_on_disk
    photos []

lemma photos_to_download_loop_nonpos {α : Type} (cs : Bool) (m : Int)
    (onDisk : List String) (hm : ¬ 0 < m) :
    ∀ (photos acc : List (String × α)),
      photos_to_download_loop cs m onDisk photos acc =
        acc ++ photos.filter (need_download cs onDisk) := by
  intro photos
  induction photos with
  | nil => intro acc; simp [photos_to_download_loop]
  | cons p rest ih =>
    intro acc
    simp only [photos_to_download_loop, if_neg hm]
    by_cases hneed : need_download cs onDisk p = true
    · simp [hneed, ih, List.filter_cons]
    · simp only [Bool.not_eq_true] at hneed
      simp [hneed, ih, List.filter_cons]

lemma photos_to_download_loop_pos {α : Type} (cs : Bool) (m : Int)
    (onDisk : List String) (hm : 0 < m) :
    ∀ (photos acc : List (String × α)), (acc.length : Int) < m →
      photos_to_download_loop cs m onDisk photos acc =
        acc ++ (photos.filter (need_download cs onDisk)).take
          (m.toNat - acc.length) := by
  intro photos
  induction photos with
  | nil => intro acc _; simp [photos_to_download_loop]
  | cons p rest ih =>
    intro acc hacc
    simp only [photos_to_download_loop, if_pos hm]
    rw [List.filter_cons]
    by_cases hneed : need_download cs onDisk p = true
    · simp only [hneed, if_true]
      have hlen : (acc ++ [p]).length = acc.length + 1 := by simp
      by_cases hstop : m ≤ ((acc ++ [p]).length : Int)
      · rw [if_pos hstop]
        have hmn : m.toNat - acc.length = 1 := by
          rw [hlen] at hstop
          omega
        rw [hmn]
        simp
      · rw [if_neg hstop, ih (acc ++ [p]) (by omega)]
        have hmn : m.toNat - acc.length =
            (m.toNat - (acc ++ [p]).length) + 1 := by
          rw [hlen]
          rw [hlen] at hstop
          push_cast at hstop
          omega
        rw [hmn, List.take_succ_cons]
        simp
    · simp only [Bool.not_eq_true] at hneed
      simp only [hneed, Bool.false_eq_true, if_false]
      have hstop : ¬ m ≤ ((acc : List (String × α)).length : Int) := by omega
      rw [if_neg hstop, ih acc hacc]

/-- C1 (amended): the plan is exactly the remote entries missing from the
local index, truncated to `max_downloads` entries when `max_downloads` is
**positive**; a zero or negative `max_downloads` imposes no limit. -/
theorem C1_reconciler_plan {α : Type} (cs : Bool) (m : Int)
    (onDisk : List String) (photos : List (String × α)) :
    photos_to_download cs m onDisk photos =
      (if 0 < m then
        (photos.filter (need_download cs onDisk)).take m.toNat
      else photos.filter (need_download cs onDisk)) := by
  by_cases hm : 0 < m
  · rw [if_pos hm, photos_to_download,
      photos_to_download_loop_pos cs m onDisk hm photos [] (by simpa using hm)]
    simp
  · rw [if_neg hm, photos_to_download,
      photos_to_download_loop_nonpos cs m onDisk hm photos []]
    simp

/-- C1 counterexample: `max_downloads = 0` is non-negative, yet the code
imposes no limit — the plan still receives an entry, so accumulation does
not stop once the plan has reached `0` entries. -/
theorem C1_counterexample :
    (0 : Int) ≤ 0 ∧
    photos_to_download false 0 [] [("a.jpg", (0 : Nat))] =
      [("a.jpg", (0 : Nat))] ∧
    0 < (photos_to_download false 0 [] [("a.jpg", (0 : Nat))]).length := by
  refine ⟨le_refl 0, rfl, ?_⟩
  decide

/-! ## RemoteListing (`parse_get_mediaitems_response`, lines 306–328, and
the pagination loop of `main`, lines 95–113) -/

/-- One element of a `mediaItems` array.  The `filename` property may be
missing; `payload` stands for the rest of the metadata dict (the whole
item is what gets stored as the dict value). -/
structure RawMediaItem where
  filename : Option String
  payload : Nat
deriving DecidableEq

/-- A `GET mediaItems` response body: optional `mediaItems` array and
optional `nextPageToken` property. -/
structure MediaItemsResponse where
  mediaItems : Option (List RawMediaItem)
  nextPageToken : Option String

/-- The item loop of `parse_get_mediaitems_response` (lines 319–324):
items carrying a `filename` are written into the dict (overwriting any
earlier entry with that filename), items without one are skipped. -/
def add_media_items (items : List RawMediaItem)
    (photos : List (String × RawMediaItem)) : List (String × RawMediaItem) :=
  items.foldl (fun d it =>
    match it.filename with
    | some file_name => dict_set d file_name it
    | none => d) photos

/-- `parse_get_mediaitems_response` (lines 306–328): returns the updated
dict alongside the next-page token (the Python mutates `photos` in place
and returns just the token).  A missing `mediaItems` property leaves the
dict unchanged. -/
def parse_get_mediaitems_response (response : MediaItemsResponse)
    (photos : List (String × RawMediaItem)) :
    List (String × RawMediaItem) × Option String :=
  (match response.mediaItems with
   | some media_items => add_media_items media_items photos
   | none => photos,
   response.nextPageToken)

/-- The pagination loop of `main` lines 95–113, restricted to the dict it
accumulates: each page's response is parsed into the same dict in order. -/
def fetch_all_pages (pages : List (List RawMediaItem)) :
    List (String × RawMediaItem) :=
  pages.foldl (fun photos page =>
    (parse_get_mediaitems_response ⟨some page, none⟩ photos).1) []

lemma add_media_items_append (a b : List RawMediaItem)
    (d : List (String × RawMediaItem)) :
    add_media_items (a ++ b) d = add_media_items b (add_media_items a d) := by
  simp [add_media_items, List.foldl_append]

lemma fetch_pages_from (pages : List (List RawMediaItem)) :
    ∀ d, pages.foldl (fun photos page =>
        (parse_get_mediaitems_response ⟨some page, none⟩ photos).1) d =
      add_media_items pages.flatten d := by
  induction pages with
  | nil => intro d; simp [add_media_items]
  | cons page rest ih =>
    intro d
    rw [List.foldl_cons, ih, List.flatten_cons, add_media_items_append]
    rfl

lemma dict_lookup_map_update {ν : Type} (k : String) (v : ν) :
    ∀ d : List (String × ν), d.any (fun p => p.1 == k) = true →
      dict_lookup (d.map (fun p => if p.1 == k then (k, v) else p)) k =
        some v := by
  intro d
  induction d with
  | nil => intro h; simp at h
  | cons q tl ih =>
    intro h
    by_cases hq : (q.1 == k) = true
    · simp [dict_lookup, List.find?, hq]
    · simp only [List.any_cons, hq, Bool.false_or] at h
      simp only [List.map_cons, hq, if_false, Bool.false_eq_true]
      simp only [dict_lookup, List.find?, hq] at ih ⊢
      exact ih h

lemma dict_lookup_append_new {ν : Type} (k : String) (v : ν) :
    ∀ d : List (String × ν), d.any (fun p => p.1 == k) = false →
      dict_lookup (d ++ [(k, v)]) k = some v := by
  intro d
  induction d with
  | nil => simp [dict_lookup, List.find?]
  | cons q tl ih =>
    intro h
    simp only [List.any_cons, Bool.or_eq_false_iff] at h
    simp only [List.cons_append, dict_lookup, List.find?, h.1,
      Bool.false_eq_true]
    simp only [dict_lookup] at ih
    exact ih h.2

lemma dict_lookup_set {ν : Type} (d : List (String × ν)) (k : String)
    (v : ν) : dict_lookup (dict_set d k v) k = some v := by
  unfold dict_set
  by_cases h : d.any (fun p => p.1 == k) = true
  · rw [if_pos h]
    exact dict_lookup_map_update k v d h
  · simp only [Bool.not_eq_true] at h
    rw [if_neg (by simp [h])]
    exact dict_lookup_append_new k v d h

lemma add_media_items_snoc (items : List RawMediaItem) (it : RawMediaItem)
    (fn : String) (d : List (String × RawMediaItem))
    (hfn : it.filename = some fn) :
    add_media_items (items ++ [it]) d =
      dict_set (add_media_items items d) fn it := by
  rw [add_media_items_append]
  simp [add_media_items, hfn]

/-- C2: folding `parse_get_mediaitems_response` over the pages in order
produces exactly the dict obtained by parsing one page holding all items
in page order (hence the same filename set and the same winning record
per filename), and an item appended later with the same filename
overwrites the earlier entry. -/
theorem C2_pagination_merge (pages : List (List RawMediaItem)) :
    fetch_all_pages pages =
      (parse_get_mediaitems_response ⟨some pages.flatten, none⟩ []).1
    ∧ ∀ (items : List RawMediaItem) (it : RawMediaItem) (fn : String)
        (d : List (String × RawMediaItem)), it.filename = some fn →
        dict_lookup (add_media_items (items ++ [it]) d) fn = some it := by
  constructor
  · rw [fetch_all_pages, fetch_pages_from pages []]
    simp [parse_get_mediaitems_response]
  · intro items it fn d hfn
    rw [add_media_items_snoc items it fn d hfn]
    exact dict_lookup_set _ _ _

/-- Witness for C2 at a concrete two-page listing with a duplicate
filename. -/
theorem C2_pagination_merge_witness :
    fetch_all_pages [[⟨some "a.jpg", 1⟩], [⟨some "a.jpg", 2⟩, ⟨none, 3⟩]] =
      (parse_get_mediaitems_response
        ⟨some [⟨some "a.jpg", 1⟩, ⟨some "a.jpg", 2⟩, ⟨none, 3⟩], none⟩ []).1
    ∧ dict_lookup
        (add_media_items ([⟨some "a.jpg", 1⟩] ++ [⟨some "a.jpg", 2⟩]) [])
        "a.jpg" = some ⟨some "a.jpg", 2⟩ := by
  have h := C2_pagination_merge [[⟨some "a.jpg", 1⟩], [⟨some "a.jpg", 2⟩, ⟨none, 3⟩]]
  exact ⟨h.1, h.2 [⟨some "a.jpg", 1⟩] ⟨some "a.jpg", 2⟩ "a.jpg" [] rfl⟩

/-! ## LocalListing index construction (`list_library_photos_sqlite`,
lines 390–395, and `list_library_photos_filesystem`, lines 417–424) -/

/-- The row loop of `list_library_photos_sqlite`: each
`ZORIGINALFILENAME` row is keyed as-is in case-sensitive mode and
lowercased otherwise, with value `True`. -/
def list_library_photos_sqlite (case_sensitive : Bool) (rows : List String) :
    List (String × Bool) :=
  rows.foldl (fun photos row =>
    dict_set photos (if case_sensitive then row else str_lower row) true) []

/-- The walk loop of `list_library_photos_filesystem`: every filename
found under the Masters directory is keyed (lowercased unless
case-sensitive) with the full path as value.  `walk` lists the
`(dirpath, filenames)` pairs produced by `os.walk`. -/
def list_library_photos_filesystem (case_sensitive : Bool)
    (walk : List (String × List String)) : List (String × String) :=
  walk.foldl (fun photo_files_on_disk entry =>
    entry.2.foldl (fun d filename =>
      dict_set d (if case_sensitive then filename else str_lower filename)
        (entry.1 ++ "/" ++ filename)) photo_files_on_disk) []

/-- C7: "Photo.JPG" and "photo.jpg" collide onto a single key in
case-insensitive mode (both index builders produce one entry, and
reconciliation treats the remote "Photo.JPG" as already on disk), while
case-sensitive mode keeps them distinct (two entries; the remote file is
planned for download). -/
theorem C7_case_folding :
    list_library_photos_sqlite false ["Photo.JPG", "photo.jpg"] =
      [("photo.jpg", true)]
    ∧ (list_library_photos_sqlite true ["Photo.JPG", "photo.jpg"]).length = 2
    ∧ list_library_photos_filesystem false
        [("Masters", ["Photo.JPG", "photo.jpg"])] =
      [("photo.jpg", "Masters/photo.jpg")]
    ∧ (list_library_photos_filesystem true
        [("Masters", ["Photo.JPG", "photo.jpg"])]).length = 2
    ∧ photos_to_download false (-1) ["photo.jpg"] [("Photo.JPG", (0 : Nat))] =
      []
    ∧ photos_to_download true (-1) ["photo.jpg"] [("Photo.JPG", (0 : Nat))] =
      [("Photo.JPG", (0 : Nat))] := by
  refine ⟨?_, ?_, ?_, ?_, ?_, ?_⟩ <;> decide

/-! ## LocalListing strategy fallback (`list_library_photos`, lines
471–495, and its caller `main`, lines 62–65) -/

/-- `list_library_photos` lines 480–486, instrumented with the list of
strategy numbers actually invoked (1 = sqlite, 2 = filesystem walk,
3 = applescript).  Each strategy's would-be result is passed in; the code
consults a later strategy only when the running result is still `None`. -/
def list_library_photos {β : Type} (sqlite_result filesystem_result
    applescript_result : Option (List β)) : Option (List β) × List Nat :=
  let photos := sqlite_result
  let state := match photos with
    | none => (filesystem_result, [1, 2])
    | some d => (some d, [1])
  match state.1 with
  | none => (applescript_result, state.2 ++ [3])
  | some d => (some d, state.2)

/-- Modelled from the spec of the caller (`main` lines 64–65):
`error_print` exits the process, so the account sync is aborted whenever
the listing is `None` (or empty). -/
def main_aborts_on_listing {β : Type}
    (photo_files_on_disk : Option (List β)) : Bool :=
  match photo_files_on_disk with
  | none => true
  | some d => d.length == 0

/-- The spec's words for C5: the first non-absent strategy result. -/
def first_non_absent {β : Type} (r1 r2 r3 : Option (List β)) :
    Option (List β) :=
  match r1 with
  | some d => some d
  | none =>
    match r2 with
    | some d => some d
    | none => r3

/-- C5: the three listing strategies are consulted in the order sqlite,
filesystem, applescript; a later one only when every earlier one returned
`None`; the first non-absent result is returned; and when all three are
absent the overall listing is `None` and the caller aborts. -/
theorem C5_strategy_fallback {β : Type}
    (r1 r2 r3 : Option (List β)) :
    (list_library_photos r1 r2 r3).1 = first_non_absent r1 r2 r3
    ∧ ((2 : Nat) ∈ (list_library_photos r1 r2 r3).2 ↔ r1 = none)
    ∧ ((3 : Nat) ∈ (list_library_photos r1 r2 r3).2 ↔ r1 = none ∧ r2 = none)
    ∧ (r1 = none → r2 = none → r3 = none →
        (list_library_photos r1 r2 r3).1 = none ∧
        main_aborts_on_listing (list_library_photos r1 r2 r3).1 = true) := by
  cases r1 <;> cases r2 <;> cases r3 <;>
    simp [list_library_photos, first_non_absent, main_aborts_on_listing]

/-- Witness for C5: with all three strategies absent the listing is
absent and the run aborts. -/
theorem C5_strategy_fallback_witness :
    (@list_library_photos Nat none none none).1 = none ∧
    main_aborts_on_listing (@list_library_photos Nat none none none).1 =
      true :=
  (@C5_strategy_fallback Nat none none none).2.2.2 rfl rfl rfl

/-! ## Staging-directory lifecycle (`main` lines 75–78 and 186–204)

The staging directory of an account is modelled as
`Option (List String)`: `none` when the directory does not exist, and
`some files` otherwise. -/

/-- `main` lines 75–78, run at the start of each account's processing:
`shutil.rmtree` removes the directory if it exists, then `mkdir`
re-creates it empty — whatever was there before, the account starts with
an existing, empty staging directory. -/
def staging_at_account_start (_previous : Option (List String)) :
    Option (List String) :=
  some []

/-- End-of-run cleanup (`main` lines 187–204) evaluated per account:
whether each account's staging directory still exists after the run.
`plan_sizes` holds `len(photos_to_download)` per account in processing
order.  The guard on line 190 reads the leftover loop variable
`photos_to_download`, i.e. the **last** account's plan; only when it is
non-empty (and the run is not a dry run and `--keep-downloads` is off)
does the loop on lines 194–197 delete every account's staging
directory. -/
def staging_dirs_after_run (dry_run keep_downloads : Bool)
    (plan_sizes : List Nat) : List Bool :=
  if dry_run then plan_sizes.map (fun _ => true)
  else
    if 0 < plan_sizes.getLastD 0 then
      (if keep_downloads then plan_sizes.map (fun _ => true)
       else plan_sizes.map (fun _ => false))
    else plan_sizes.map (fun _ => true)

/-- C6 at the failing input (code bug): two accounts, not a dry run,
`keep_downloads` off; the first account's plan had one photo, the last
account's plan was empty.  Staging directories are indeed emptied at each
account's start, but at the end of the run **both** staging directories
survive — the cleanup guard tests only the last account's leftover
`photos_to_download` — although the claim requires both deleted. -/
theorem C6_cleanup_at_failing_input :
    staging_at_account_start (some ["leftover.jpg"]) = some []
    ∧ staging_dirs_after_run false false [1, 0] = [true, true]
    ∧ staging_dirs_after_run false false [1, 0] ≠ [false, false] := by
  refine ⟨rfl, rfl, ?_⟩
  decide

/-! ## Timestamp parsing (`download_file` lines 825–833)

`time.strptime(s, "%Y-%m-%dT%H:%M:%SZ")` is embedded over the string's
characters, following CPython's per-directive regular expressions
(`%Y` → four digits, `%m` → `1[0-2]|0[1-9]|[1-9]`, and so on), with a
`None` result standing for the `ValueError` the Python raises; the whole
input must be consumed. -/

/-- The numeric value of an ASCII digit, `none` otherwise. -/
def digit_val (c : Char) : Option Nat :=
  if '0' ≤ c ∧ c ≤ '9' then some (c.toNat - 48) else none

/-- `%Y`: exactly four digits. -/
def parse_year : List Char → Option (Nat × List Char)
  | a :: b :: c :: d :: rest =>
    match digit_val a, digit_val b, digit_val c, digit_val d with
    | some x, some y, some z, some w =>
      some (x * 1000 + y * 100 + z * 10 + w, rest)
    | _, _, _, _ => none
  | _ => none

/-- `%m`, matched like `1[0-2]|0[1-9]|[1-9]`. -/
def parse_month : List Char → Option (Nat × List Char)
  | a :: b :: rest =>
    if a = '1' ∧ ('0' ≤ b ∧ b ≤ '2') then some (10 + (b.toNat - 48), rest)
    else if a = '0' ∧ ('1' ≤ b ∧ b ≤ '9') then some (b.toNat - 48, rest)
    else if '1' ≤ a ∧ a ≤ '9' then some (a.toNat - 48, b :: rest)
    else none
  | [a] => if '1' ≤ a ∧ a ≤ '9' then some (a.toNat - 48, []) else none
  | [] => none

/-- `%d`, matched like `3[01]|[12]\d|0[1-9]|[1-9]`. -/
def parse_day : List Char → Option (Nat × List Char)
  | a :: b :: rest =>
    if a = '3' ∧ ('0' ≤ b ∧ b ≤ '1') then some (30 + (b.toNat - 48), rest)
    else if ('1' ≤ a ∧ a ≤ '2') ∧ ('0' ≤ b ∧ b ≤ '9') then
      some ((a.toNat - 48) * 10 + (b.toNat - 48), rest)
    else if a = '0' ∧ ('1' ≤ b ∧ b ≤ '9') then some (b.toNat - 48, rest)
    else if '1' ≤ a ∧ a ≤ '9' then some (a.toNat - 48, b :: rest)
    else none
  | [a] => if '1' ≤ a ∧ a ≤ '9' then some (a.toNat - 48, []) else none
  | [] => none

/-- `%H`, matched like `2[0-3]|[0-1]\d|\d`. -/
def parse_hour : List Char → Option (Nat × List Char)
  | a :: b :: rest =>
    if a = '2' ∧ ('0' ≤ b ∧ b ≤ '3') then some (20 + (b.toNat - 48), rest)
    else if ('0' ≤ a ∧ a ≤ '1') ∧ ('0' ≤ b ∧ b ≤ '9') then
      some ((a.toNat - 48) * 10 + (b.toNat - 48), rest)
    else if '0' ≤ a ∧ a ≤ '9' then some (a.toNat - 48, b :: rest)
    else none
  | [a] => if '0' ≤ a ∧ a ≤ '9' then some (a.toNat - 48, []) else none
  | [] => none

/-- `%M`, matched like `[0-5]\d|\d`. -/
def parse_minute : List Char → Option (Nat × List Char)
  | a :: b :: rest =>
    if ('0' ≤ a ∧ a ≤ '5') ∧ ('0' ≤ b ∧ b ≤ '9') then
      some ((a.toNat - 48) * 10 + (b.toNat - 48), rest)
    else if '0' ≤ a ∧ a ≤ '9' then some (a.toNat - 48, b :: rest)
    else none
  | [a] => if '0' ≤ a ∧ a ≤ '9' then some (a.toNat - 48, []) else none
  | [] => none

/-- `%S`, matched like `6[0-1]|[0-5]\d|\d` (leap seconds allowed). -/
def parse_second : List Char → Option (Nat × List Char)
  | a :: b :: rest =>
    if a = '6' ∧ ('0' ≤ b ∧ b ≤ '1') then some (60 + (b.toNat - 48), rest)
    else if ('0' ≤ a ∧ a ≤ '5') ∧ ('0' ≤ b ∧ b ≤ '9') then
      some ((a.toNat - 48) * 10 + (b.toNat - 48), rest)
    else if '0' ≤ a ∧ a ≤ '9' then some (a.toNat - 48, b :: rest)
    else none
  | [a] => if '0' ≤ a ∧ a ≤ '9' then some (a.toNat - 48, []) else none
  | [] => none

/-- A literal character of the format string. -/
def parse_literal (c : Char) : List Char → Option (List Char)
  | x :: rest => if x = c then some rest else none
  | [] => none

/-- The fields of `time.struct_time` that the code uses. -/
structure TimeStruct where
  tm_year : Nat
  tm_mon : Nat
  tm_mday : Nat
  tm_hour : Nat
  tm_min : Nat
  tm_sec : Nat
deriving DecidableEq

/-- `time.strptime(s, "%Y-%m-%dT%H:%M:%SZ")`; `none` is the
`ValueError` raised on a malformed string (including trailing
unconverted data). -/
def strptime_iso_z (s : String) : Option TimeStruct :=
  (parse_year s.data).bind (fun py =>
  (parse_literal '-' py.2).bind (fun r1 =>
  (parse_month r1).bind (fun pm =>
  (parse_literal '-' pm.2).bind (fun r2 =>
  (parse_day r2).bind (fun pd =>
  (parse_literal 'T' pd.2).bind (fun r3 =>
  (parse_hour r3).bind (fun ph =>
  (parse_literal ':' ph.2).bind (fun r4 =>
  (parse_minute r4).bind (fun pmin =>
  (parse_literal ':' pmin.2).bind (fun r5 =>
  (parse_second r5).bind (fun ps =>
  (parse_literal 'Z' ps.2).bind (fun r6 =>
  match r6 with
  | [] => some ⟨py.1, pm.1, pd.1, ph.1, pmin.1, ps.1⟩
  | _ :: _ => none))))))))))))

def is_leap_year (y : Nat) : Bool :=
  (y % 4 == 0 && y % 100 != 0) || y % 400 == 0

def days_in_month (y m : Nat) : Nat :=
  if m = 2 then (if is_leap_year y then 29 else 28)
  else if m = 4 ∨ m = 6 ∨ m = 9 ∨ m = 11 then 30
  else 31

/-- Seconds since 1970-01-01T00:00:00 for calendar fields read as UTC:
days from the epoch times 86400 plus the time of day. -/
def epoch_of_fields (t : TimeStruct) : Nat :=
  let days_years := (List.range (t.tm_year - 1970)).foldl
    (fun acc i => acc + (if is_leap_year (1970 + i) then 366 else 365)) 0
  let days_months := (List.range (t.tm_mon - 1)).foldl
    (fun acc i => acc + days_in_month t.tm_year (i + 1)) 0
  (days_years + days_months + (t.tm_mday - 1)) * 86400
    + t.tm_hour * 3600 + t.tm_min * 60 + t.tm_sec

/-- `time.mktime` (line 828): the parsed fields are interpreted as
**local** wall-clock time (`strptime` has no timezone directive here, so
the literal `Z` is discarded), making the resulting epoch second the UTC
reading of the fields minus `utc_offset` — the seconds east of UTC that
the C library applies to this wall time (offset and DST choice are an
input from the process environment, not from the program). -/
def mktime (utc_offset : Int) (t : TimeStruct) : Int :=
  (epoch_of_fields t : Int) - utc_offset

/-- Lines 827–828 of `download_file`: parse the capture timestamp string
and convert it to (integer) epoch seconds with `time.mktime` under the
process's UTC offset. -/
def parse_file_creation_timestamp (utc_offset : Int) (s : String) :
    Option Int :=
  (strptime_iso_z s).map (mktime utc_offset)

/-! ## Downloader (`download_file`, lines 805–843, and the download loop
of `main`, lines 138–160) -/

/-- Outcomes of the effectful steps of `download_file`, passed in
explicitly.  `get_response` (line 815) and `make_temp_file` (line 818)
run **before** the `try` block; `stream_chunks` (lines 821–823),
`utime_result` (line 829) and `rename_result` (line 834) run inside it.
`utc_offset` is the process timezone's offset (seconds east of UTC) that
`time.mktime` applies on line 828 — part of the environment, like the
other fields. -/
structure DownloadEnv where
  get_response : Except String Unit
  make_temp_file : Except String Unit
  stream_chunks : Except String Unit
  utime_result : Except String Unit
  rename_result : Except String Unit
  utc_offset : Int

/-- The `try` block of `download_file` (lines 820–835): stream the body
to the temp file, restore the timestamp — the inner `try` catches
`OSError` and `ValueError`, leaving filesystem-default timestamps — and
rename the temp file.  The returned value is the timestamp (epoch
seconds) carried by the renamed file, `none` meaning the default. -/
def download_file_try_block (env : DownloadEnv)
    (file_creation_timestamp : Option String) : Except String (Option Int) :=
  match env.stream_chunks with
  | .error e => .error e
  | .ok _ =>
    let times : Option Int :=
      match file_creation_timestamp with
      | none => none
      | some s =>
        match parse_file_creation_timestamp env.utc_offset s with
        | none => none
        | some secs =>
          match env.utime_result with
          | .ok _ => some secs
          | .error _ => none
    match env.rename_result with
    | .error e => .error e
    | .ok _ => .ok times

/-- `download_file` (lines 805–843): the result pair is
`(downloaded, times of the downloaded file)`; an `Except.error` models an
exception propagating out of the call. -/
def download_file (env : DownloadEnv)
    (file_creation_timestamp : Option String) :
    Except String (Bool × Option Int) :=
  match env.get_response with
  | .error e => .error e
  | .ok _ =>
    match env.make_temp_file with
    | .error e => .error e
    | .ok _ =>
      match download_file_try_block env file_creation_timestamp with
      | .ok times => .ok (true, times)
      | .error _ => .ok (false, none)

/-- The download loop of `main` lines 139–160, restricted to the
`download_file` calls: returns
`(num_successful_downloads, items attempted)`.  An `Except.error` would
model an exception escaping one call and aborting the loop. -/
def run_download_batch :
    List (DownloadEnv × Option String) → Nat → Nat → Except String (Nat × Nat)
  | [], num_successful, attempted => .ok (num_successful, attempted)
  | (env, ts) :: rest, num_successful, attempted =>
    match download_file env ts with
    | .error e => .error e
    | .ok (downloaded, _) =>
      run_download_batch rest
        (if downloaded then num_successful + 1 else num_successful)
        (attempted + 1)

lemma download_file_is_ok (env : DownloadEnv) (ts : Option String)
    (hg : env.get_response = .ok ()) (hm : env.make_temp_file = .ok ()) :
    ∃ r, download_file env ts = .ok r := by
  unfold download_file
  rw [hg, hm]
  cases download_file_try_block env ts with
  | ok times => exact ⟨(true, times), rfl⟩
  | error e => exact ⟨(false, none), rfl⟩

lemma run_download_batch_total :
    ∀ (batch : List (DownloadEnv × Option String)),
      (∀ x ∈ batch,
        x.1.get_response = .ok () ∧ x.1.make_temp_file = .ok ()) →
      ∀ s a, ∃ n, run_download_batch batch s a = .ok (n, a + batch.length) := by
  intro batch
  induction batch with
  | nil => intro _ s a; exact ⟨s, by simp [run_download_batch]⟩
  | cons x rest ih =>
    intro h s a
    obtain ⟨env, ts⟩ := x
    have hx := h (env, ts) (List.mem_cons_self _ _)
    obtain ⟨⟨downloaded, times⟩, hdl⟩ :=
      download_file_is_ok env ts hx.1 hx.2
    have hrest := ih (fun y hy => h y (List.mem_cons_of_mem _ hy))
    obtain ⟨n, hn⟩ :=
      hrest (if downloaded then s + 1 else s) (a + 1)
    refine ⟨n, ?_⟩
    rw [run_download_batch, hdl]
    show run_download_batch rest (if downloaded = true then s + 1 else s)
      (a + 1) = _
    have harith : a + 1 + rest.length = a + ((env, ts) :: rest).length := by
      simp only [List.length_cons]
      omega
    rw [hn, harith]

/-- C3: once the GET has returned and the temporary file exists, no
outcome of streaming, timestamp-setting or renaming escapes
`download_file` — the call always returns a boolean, and a streaming
error yields `False` — and therefore a batch attempts every one of its
items, whatever the individual outcomes. -/
theorem C3_download_error_contained :
    (∀ (env : DownloadEnv) (ts : Option String),
      env.get_response = .ok () → env.make_temp_file = .ok () →
      (∃ r, download_file env ts = .ok r) ∧
      (∀ e, env.stream_chunks = .error e →
        download_file env ts = .ok (false, none))) ∧
    (∀ batch : List (DownloadEnv × Option String),
      (∀ x ∈ batch,
        x.1.get_response = .ok () ∧ x.1.make_temp_file = .ok ()) →
      ∃ n, run_download_batch batch 0 0 = .ok (n, batch.length)) := by
  constructor
  · intro env ts hg hm
    refine ⟨download_file_is_ok env ts hg hm, ?_⟩
    intro e hstream
    unfold download_file download_file_try_block
    rw [hg, hm, hstream]
  · intro batch h
    simpa using run_download_batch_total batch h 0 0

/-- A download whose every effect succeeds, in a UTC process. -/
def env_all_ok : DownloadEnv := ⟨.ok (), .ok (), .ok (), .ok (), .ok (), 0⟩

/-- A download whose body streaming raises. -/
def env_stream_fails : DownloadEnv :=
  ⟨.ok (), .ok (), .error "connection reset", .ok (), .ok (), 0⟩

/-- A download whose every effect succeeds, in a process one hour east of
UTC (Central European winter time). -/
def env_cet : DownloadEnv := ⟨.ok (), .ok (), .ok (), .ok (), .ok (), 3600⟩

/-- Witness for C3: the failed item reports `False` without raising, and
a two-item batch containing it still attempts both items. -/
theorem C3_download_error_contained_witness :
    download_file env_stream_fails none = .ok (false, none) ∧
    ∃ n, run_download_batch [(env_stream_fails, none), (env_all_ok, none)]
      0 0 = .ok (n, 2) := by
  constructor
  · exact (C3_download_error_contained.1 env_stream_fails none rfl rfl).2
      "connection reset" rfl
  · exact C3_download_error_contained.2
      [(env_stream_fails, none), (env_all_ok, none)]
      (by
        intro x hx
        simp only [List.mem_cons, List.mem_singleton] at hx
        rcases hx with rfl | rfl | hx
        · exact ⟨rfl, rfl⟩
        · exact ⟨rfl, rfl⟩
        · exact absurd hx (List.not_mem_nil x))

/-- C4 counterexample: in a process whose local timezone is one hour
east of UTC, `time.mktime` reads the parsed fields as local wall-clock
time, and the code sets the downloaded file's times to 1577833200 — not
the corresponding epoch second 1577836800 of "2020-01-01T00:00:00Z". -/
theorem C4_counterexample :
    download_file env_cet (some "2020-01-01T00:00:00Z") =
      .ok (true, some 1577833200)
    ∧ (1577833200 : Int) ≠ 1577836800 := by
  refine ⟨rfl, by decide⟩

/-- C4 (amended): with every effect succeeding, the capture timestamp
"2020-01-01T00:00:00Z" makes the downloaded file carry access and
modification times equal to `time.mktime`'s local-time reading of the
parsed fields — the corresponding epoch second 1577836800 minus the
process timezone's UTC offset, hence exactly 1577836800 when the process
runs in UTC — while any malformed timestamp string leaves the
filesystem-default timestamps, lets no exception escape, and still
reports a successful download. -/
theorem C4_timestamp_restoration (env : DownloadEnv)
    (hg : env.get_response = .ok ()) (hm : env.make_temp_file = .ok ())
    (hs : env.stream_chunks = .ok ()) (hu : env.utime_result = .ok ())
    (hr : env.rename_result = .ok ()) :
    download_file env (some "2020-01-01T00:00:00Z") =
      .ok (true, some (1577836800 - env.utc_offset))
    ∧ (env.utc_offset = 0 →
        download_file env (some "2020-01-01T00:00:00Z") =
          .ok (true, some 1577836800))
    ∧ ∀ s, strptime_iso_z s = none →
        download_file env (some s) = .ok (true, none) := by
  have hst : strptime_iso_z "2020-01-01T00:00:00Z" =
      some ⟨2020, 1, 1, 0, 0, 0⟩ := by decide
  have hep : epoch_of_fields ⟨2020, 1, 1, 0, 0, 0⟩ = 1577836800 := by decide
  have hts : parse_file_creation_timestamp env.utc_offset
      "2020-01-01T00:00:00Z" = some (1577836800 - env.utc_offset) := by
    rw [parse_file_creation_timestamp, hst, Option.map_some']
    simp [mktime, hep]
  have hmain : download_file env (some "2020-01-01T00:00:00Z") =
      .ok (true, some (1577836800 - env.utc_offset)) := by
    unfold download_file download_file_try_block
    rw [hg, hm, hs, hu]
    rw [hr]
    simp [hts]
  refine ⟨hmain, ?_, ?_⟩
  · intro h0
    rw [hmain, h0]
    norm_num
  · intro s hps
    have hps' : parse_file_creation_timestamp env.utc_offset s = none := by
      rw [parse_file_creation_timestamp, hps]
      rfl
    unfold download_file download_file_try_block
    rw [hg, hm, hs, hr]
    simp [hps']

/-- Witness for C4 in a UTC process together with a concrete malformed
string. -/
theorem C4_timestamp_restoration_witness :
    download_file env_all_ok (some "2020-01-01T00:00:00Z") =
      .ok (true, some 1577836800)
    ∧ download_file env_all_ok (some "not-a-timestamp") =
      .ok (true, none) := by
  have h := C4_timestamp_restoration env_all_ok rfl rfl rfl rfl rfl
  exact ⟨h.2.1 rfl, h.2.2 "not-a-timestamp" (by decide)⟩

/-! ## Download-URL derivation (`main` lines 141–152) -/

/-- Python's `str.startswith`, characterwise: is the first list a prefix
of the second? -/
def chars_startswith : List Char → List Char → Bool
  | [], _ => true
  | _ :: _, [] => false
  | a :: as, b :: bs => a == b && chars_startswith as bs

/-- `mime_type.startswith(p)`. -/
def py_startswith (s p : String) : Bool :=
  chars_startswith p.data s.data

/-- Lines 142–152: the variant suffix derived from the record's MIME
type.  `none` models the `continue` on line 151: the item is skipped with
a diagnostic, no URL is derived and no fetch is attempted. -/
def download_url (mime_type baseUrl : String) : Option String :=
  if py_startswith mime_type "image" then some (baseUrl ++ "=d")
  else if py_startswith mime_type "video" then some (baseUrl ++ "=dv")
  else none

/-- The download loop of `main` lines 140–152 restricted to URL
derivation: the fetches actually attempted for a plan of
`(filename, mimeType, baseUrl)` items.  A skipped item merely continues
the loop. -/
def fetch_attempts :
    List (String × String × String) → List (String × String)
  | [] => []
  | (filename, mime_type, baseUrl) :: rest =>
    match download_url mime_type baseUrl with
    | some url => (filename, url) :: fetch_attempts rest
    | none => fetch_attempts rest

lemma not_image_of_video (mime : String)
    (h : py_startswith mime "video" = true) :
    py_startswith mime "image" = false := by
  unfold py_startswith at h ⊢
  have hv : "video".data = ['v', 'i', 'd', 'e', 'o'] := rfl
  have hi : "image".data = ['i', 'm', 'a', 'g', 'e'] := rfl
  rw [hv] at h
  rw [hi]
  cases hd : mime.data with
  | nil =>
    rw [hd] at h
    exact absurd h (by simp [chars_startswith])
  | cons c tl =>
    rw [hd] at h
    simp only [chars_startswith, Bool.and_eq_true, beq_iff_eq] at h
    obtain ⟨hc, _⟩ := h
    subst hc
    simp only [chars_startswith]
    have hiv : ('i' == 'v') = false := rfl
    rw [hiv, Bool.false_and]

/-- C8: an image-class MIME type yields the fetch URL `baseUrl ++ "=d"`,
a video-class one yields `baseUrl ++ "=dv"`, any other class yields no
URL at all (the item is skipped), and a skipped item (here
"application/pdf") does not stop the later items of the plan from being
fetched. -/
theorem C8_mime_url_suffix :
    (∀ mime base : String, py_startswith mime "image" = true →
      download_url mime base = some (base ++ "=d"))
    ∧ (∀ mime base : String, py_startswith mime "video" = true →
      download_url mime base = some (base ++ "=dv"))
    ∧ (∀ mime base : String, py_startswith mime "image" = false →
      py_startswith mime "video" = false → download_url mime base = none)
    ∧ fetch_attempts
        [("a.jpg", "image/jpeg", "u1"), ("doc.pdf", "application/pdf", "u2"),
         ("b.mp4", "video/mp4", "u3")] =
      [("a.jpg", "u1=d"), ("b.mp4", "u3=dv")] := by
  refine ⟨?_, ?_, ?_, ?_⟩
  · intro mime base h
    simp [download_url, h]
  · intro mime base h
    simp [download_url, h, not_image_of_video mime h]
  · intro mime base h1 h2
    simp [download_url, h1, h2]
  · decide

/-- Witness for C8 at the spec's three example MIME types. -/
theorem C8_mime_url_suffix_witness :
    download_url "image/jpeg" "B" = some ("B" ++ "=d")
    ∧ download_url "video/mp4" "B" = some ("B" ++ "=dv")
    ∧ download_url "application/pdf" "B" = none :=
  ⟨C8_mime_url_suffix.1 "image/jpeg" "B" (by decide),
   C8_mime_url_suffix.2.1 "video/mp4" "B" (by decide),
   C8_mime_url_suffix.2.2.1 "application/pdf" "B" (by decide) (by decide)⟩

/-! ## TokenPersister (lines 213–257) -/

/-- State of the token file on disk at the moment `load_token` opens
it. -/
inductive TokenFileState (τ : Type) where
  | missing : TokenFileState τ
  | unreadable : TokenFileState τ
  | malformed : TokenFileState τ
  | valid : τ → TokenFileState τ
deriving DecidableEq

/-- The three diagnostics printed by `load_token`'s `except` arms (lines
248–256). -/
inductive LoadDiag where
  | badly_formatted_json : LoadDiag
  | no_saved_token_file : LoadDiag
  | inaccessible_token_file : LoadDiag
deriving DecidableEq

/-- Everything observable about one `load_token` call (lines 239–257):
the returned value, the `_token` attribute afterwards, whether the token
file was opened, and which diagnostic was printed. -/
structure LoadResult (τ : Type) where
  result : Option τ
  token_after : Option τ
  did_read : Bool
  diag : Option LoadDiag
deriving DecidableEq

/-- `TokenPersister.load_token`: the file is opened only when no token is
cached (`self._token == None`); `JSONDecodeError`, `FileNotFoundError`
and `IOError` are each caught, printed distinctly, and turned into a
`None` return with `_token` left unset. -/
def load_token {τ : Type} (token_attr : Option τ) (fs : TokenFileState τ) :
    LoadResult τ :=
  match token_attr with
  | some t => ⟨some t, some t, false, none⟩
  | none =>
    match fs with
    | .valid t => ⟨some t, some t, true, none⟩
    | .malformed => ⟨none, none, true, some .badly_formatted_json⟩
    | .missing => ⟨none, none, true, some .no_saved_token_file⟩
    | .unreadable => ⟨none, none, true, some .inaccessible_token_file⟩

/-- `TokenPersister.save_token` (lines 231–237): caches the token in
`_token` and writes it to the token file.  `__call__` (lines 225–229),
the refresh callback entry point, is a pass-through to this method. -/
def save_token {τ : Type} (_token_attr : Option τ) (new_token : τ) :
    Option τ × TokenFileState τ :=
  (some new_token, .valid new_token)

/-- Number of file reads performed by a sequence of `load_token` calls on
one instance, the file free to change between calls. -/
def load_token_reads {τ : Type} :
    Option τ → List (TokenFileState τ) → Nat
  | _, [] => 0
  | token_attr, fs :: rest =>
    let r := load_token token_attr fs
    (if r.did_read then 1 else 0) + load_token_reads r.token_after rest

/-- C9: a missing, unreadable, or malformed token file each make
`load_token` return `None` — the three exception arms are the only exits,
nothing propagates — with three pairwise-distinct diagnostics and the
same absent result in every condition. -/
theorem C9_load_token_absent {τ : Type} :
    (load_token (none : Option τ) .missing).result = none
    ∧ (load_token (none : Option τ) .unreadable).result = none
    ∧ (load_token (none : Option τ) .malformed).result = none
    ∧ (load_token (none : Option τ) .missing).diag =
        some .no_saved_token_file
    ∧ (load_token (none : Option τ) .unreadable).diag =
        some .inaccessible_token_file
    ∧ (load_token (none : Option τ) .malformed).diag =
        some .badly_formatted_json
    ∧ LoadDiag.no_saved_token_file ≠ LoadDiag.inaccessible_token_file
    ∧ LoadDiag.no_saved_token_file ≠ LoadDiag.badly_formatted_json
    ∧ LoadDiag.inaccessible_token_file ≠ LoadDiag.badly_formatted_json := by
  refine ⟨rfl, rfl, rfl, rfl, rfl, rfl, ?_, ?_, ?_⟩ <;> decide

/-- C10 counterexample: a fresh instance facing a malformed token file
reads the file on **each** of two consecutive `load_token` calls, so an
instance does not read the token file at most once. -/
theorem C10_counterexample :
    ¬ load_token_reads (none : Option Nat) [.malformed, .malformed] ≤ 1 := by
  decide

/-- C10 (amended): `save_token` (also reached via `__call__`) followed by
`load_token` returns the saved token without reading the file, whatever
the file now holds; once any token is cached, later calls return it and a
whole trace of calls performs zero reads; and the file is read only while
no token is cached — so at most one read ever succeeds, but *failed*
loads leave the cache empty and re-read on later calls. -/
theorem C10_token_caching {τ : Type} :
    (∀ (token_attr : Option τ) (t : τ) (fs : TokenFileState τ),
      load_token (save_token token_attr t).1 fs =
        ⟨some t, some t, false, none⟩)
    ∧ (∀ (t : τ) (fs : TokenFileState τ),
      load_token (some t) fs = ⟨some t, some t, false, none⟩)
    ∧ (∀ (t : τ) (trace : List (TokenFileState τ)),
      load_token_reads (some t) trace = 0)
    ∧ (∀ (token_attr : Option τ) (fs : TokenFileState τ),
      (load_token token_attr fs).did_read = true → token_attr = none) := by
  refine ⟨fun _ t fs => rfl, fun t fs => rfl, ?_, ?_⟩
  · intro t trace
    induction trace with
    | nil => rfl
    | cons fs rest ih => simp [load_token_reads, load_token, ih]
  · intro token_attr fs h
    cases token_attr with
    | none => rfl
    | some t => simp [load_token] at h

/-- Witness for C10 at concrete inputs. -/
theorem C10_token_caching_witness :
    load_token (save_token (none : Option Nat) 7).1 .malformed =
      ⟨some 7, some 7, false, none⟩
    ∧ (none : Option Nat) = none :=
  ⟨C10_token_caching.1 none 7 .malformed,
   C10_token_caching.2.2.2 none TokenFileState.missing rfl⟩

end GPhotosSyncMac
